import Mathlib

/-
Verification of the identity/conversation layer of the winter_retreaet chat
client. Definitions are shallow embeddings of the TypeScript source:
  - sanitizeNumber, toEmail            src/src/utils/chat.ts (also App.tsx)
  - deriveConversationId               the expression [a, b].sort().join('_')
                                       from upsertChat / startChatWithNumber
  - findUserByNumber                   src/src/App.tsx lines 243-260
  - startChatWithNumber                src/src/App.tsx lines 262-294
  - handleSendMessage                  src/src/App.tsx lines 354-378
  - authErrorMessage                   src/src/App.tsx lines 53-73
  - deliverChatsSnapshot               the chat-list onSnapshot callback,
                                       src/src/App.tsx lines 165-181
Backend (Firestore) documents are modelled as association lists keyed by
document id; a merge write updates exactly the fields it carries; the set of
writes an operation issues is returned as an explicit trace.
-/

namespace WinterRetreat

/-- Embeds `value.replace(/\D/g, '').slice(0, 6)`: drop every non-digit
character, keep the first six remaining digits. -/
def sanitizeNumber (value : String) : String :=
  ⟨(value.data.filter Char.isDigit).take 6⟩

/-- Embeds `number + '@chat.local'`. -/
def toEmail (number : String) : String := number ++ "@chat.local"

/-- JavaScript default sort comparison on strings: lexicographic by character
code. -/
def charListLe : List Char → List Char → Bool
  | [], _ => true
  | _ :: _, [] => false
  | a :: as, b :: bs =>
    if a < b then true
    else if b < a then false
    else charListLe as bs

/-- Embeds `[a, b].sort().join('_')`: a two-element JavaScript sort is
ascending lexicographic order, so the result is the smaller identity,
the separator, the larger identity. -/
def deriveConversationId (a b : String) : String :=
  if charListLe a.data b.data then a ++ "_" ++ b else b ++ "_" ++ a

theorem charListLe_total (as bs : List Char) :
    charListLe as bs = true ∨ charListLe bs as = true := by
  induction as generalizing bs with
  | nil => left; rfl
  | cons a as ih =>
    cases bs with
    | nil => right; rfl
    | cons b bs =>
      rcases lt_trichotomy a b with h | h | h
      · left; simp [charListLe, h]
      · subst h
        rcases ih bs with h' | h'
        · left; simp [charListLe, lt_irrefl, h']
        · right; simp [charListLe, lt_irrefl, h']
      · right; simp [charListLe, h]

theorem charListLe_antisymm (as bs : List Char)
    (h1 : charListLe as bs = true) (h2 : charListLe bs as = true) : as = bs := by
  induction as generalizing bs with
  | nil =>
    cases bs with
    | nil => rfl
    | cons b bs => simp [charListLe] at h2
  | cons a as ih =>
    cases bs with
    | nil => simp [charListLe] at h1
    | cons b bs =>
      rcases lt_trichotomy a b with h | h | h
      · simp [charListLe, h, lt_asymm h] at h2
      · subst h
        simp only [charListLe, lt_irrefl, if_false] at h1 h2
        rw [ih bs h1 h2]
      · simp [charListLe, h, lt_asymm h] at h1

/-! Helper lemmas about strings and the separator. -/

theorem data_append_eq (s t : String) : (s ++ t).data = s.data ++ t.data := rfl

theorem sep_string_data : ("_" : String).data = ['_'] := rfl

/-- Splitting at the first separator is unambiguous when the left parts are
separator-free. -/
theorem append_sep_inj {l₁ l₂ m₁ m₂ : List Char}
    (h₁ : '_' ∉ l₁) (h₂ : '_' ∉ m₁)
    (h : l₁ ++ '_' :: l₂ = m₁ ++ '_' :: m₂) : l₁ = m₁ ∧ l₂ = m₂ := by
  induction l₁ generalizing m₁ with
  | nil =>
    cases m₁ with
    | nil => simpa using h
    | cons c m =>
      simp only [List.nil_append, List.cons_append, List.cons.injEq] at h
      exact absurd (h.1 ▸ List.mem_cons_self c m) h₂
  | cons c l ih =>
    cases m₁ with
    | nil =>
      simp only [List.cons_append, List.nil_append, List.cons.injEq] at h
      exact absurd (h.1 ▸ List.mem_cons_self c l) h₁
    | cons d m =>
      simp only [List.cons_append, List.cons.injEq] at h
      have h₁' : '_' ∉ l := fun hm => h₁ (List.mem_cons_of_mem c hm)
      have h₂' : '_' ∉ m := fun hm => h₂ (List.mem_cons_of_mem d hm)
      obtain ⟨hl, hr⟩ := ih h₁' h₂' h.2
      exact ⟨by rw [h.1, hl], hr⟩

theorem sep_concat_data (x y : String) :
    (x ++ "_" ++ y).data = x.data ++ '_' :: y.data := by
  rw [data_append_eq, data_append_eq, sep_string_data, List.append_assoc,
    List.singleton_append]

theorem sep_concat_inj {x y u v : String}
    (hx : '_' ∉ x.data) (hu : '_' ∉ u.data)
    (h : x ++ "_" ++ y = u ++ "_" ++ v) : x = u ∧ y = v := by
  have hdata : x.data ++ '_' :: y.data = u.data ++ '_' :: v.data := by
    rw [← sep_concat_data, ← sep_concat_data, h]
  obtain ⟨h1, h2⟩ := append_sep_inj hx hu hdata
  exact ⟨String.ext h1, String.ext h2⟩

theorem deriveConversationId_comm (a b : String) :
    deriveConversationId a b = deriveConversationId b a := by
  unfold deriveConversationId
  by_cases h1 : charListLe a.data b.data = true <;>
    by_cases h2 : charListLe b.data a.data = true
  · rw [if_pos h1, if_pos h2, String.ext (charListLe_antisymm _ _ h1 h2)]
  · rw [if_pos h1, if_neg h2]
  · rw [if_neg h1, if_pos h2]
  · rcases charListLe_total a.data b.data with h | h
    · exact absurd h h1
    · exact absurd h h2

theorem deriveConversationId_inj {a b c d : String}
    (ha : '_' ∉ a.data) (hb : '_' ∉ b.data)
    (hc : '_' ∉ c.data) (hd : '_' ∉ d.data)
    (h : deriveConversationId a b = deriveConversationId c d) :
    (a = c ∧ b = d) ∨ (a = d ∧ b = c) := by
  unfold deriveConversationId at h
  by_cases hab : charListLe a.data b.data = true <;>
    by_cases hcd : charListLe c.data d.data = true
  · rw [if_pos hab, if_pos hcd] at h
    exact Or.inl (sep_concat_inj ha hc h)
  · rw [if_pos hab, if_neg hcd] at h
    obtain ⟨h1, h2⟩ := sep_concat_inj ha hd h
    exact Or.inr ⟨h1, h2⟩
  · rw [if_neg hab, if_pos hcd] at h
    obtain ⟨h1, h2⟩ := sep_concat_inj hb hc h
    exact Or.inr ⟨h2, h1⟩
  · rw [if_neg hab, if_neg hcd] at h
    obtain ⟨h1, h2⟩ := sep_concat_inj hb hd h
    exact Or.inl ⟨h2, h1⟩

/-- Claim C4: for every raw input string, sanitizeNumber yields only digit
characters, has length at most six, is idempotent, and equals the first six
digits of the input in order with all non-digits stripped. -/
theorem sanitizeNumber_spec (s : String) :
    (∀ c ∈ (sanitizeNumber s).data, c.isDigit = true) ∧
    (sanitizeNumber s).length ≤ 6 ∧
    sanitizeNumber (sanitizeNumber s) = sanitizeNumber s ∧
    sanitizeNumber s = ⟨(s.data.filter Char.isDigit).take 6⟩ := by
  refine ⟨?_, ?_, ?_, rfl⟩
  · intro c hc
    exact List.of_mem_filter (List.mem_of_mem_take hc)
  · have : (sanitizeNumber s).length = ((s.data.filter Char.isDigit).take 6).length := rfl
    rw [this, List.length_take]
    exact min_le_left _ _
  · have hall : ∀ c ∈ (s.data.filter Char.isDigit).take 6, c.isDigit = true :=
      fun c hc => List.of_mem_filter (List.mem_of_mem_take hc)
    have hfilter : ((s.data.filter Char.isDigit).take 6).filter Char.isDigit
        = (s.data.filter Char.isDigit).take 6 := List.filter_eq_self.mpr hall
    have hlen : ((s.data.filter Char.isDigit).take 6).length ≤ 6 := by
      rw [List.length_take]; exact min_le_left _ _
    show (⟨(((s.data.filter Char.isDigit).take 6).filter Char.isDigit).take 6⟩ : String) = _
    rw [hfilter, List.take_of_length_le hlen]
    rfl

/-- Claim C1: for distinct separator-free participant identities, the derived
conversation identifier is order-independent, and identifier equality forces
the two unordered pairs of identities to coincide (so distinct unordered
pairs yield distinct identifiers). -/
theorem deriveConversationId_spec (a b c d : String)
    (hab : a ≠ b) (hcd : c ≠ d)
    (ha : '_' ∉ a.data) (hb : '_' ∉ b.data)
    (hc : '_' ∉ c.data) (hd : '_' ∉ d.data) :
    deriveConversationId a b = deriveConversationId b a ∧
    (deriveConversationId a b = deriveConversationId c d →
      (a = c ∧ b = d) ∨ (a = d ∧ b = c)) :=
  ⟨deriveConversationId_comm a b, fun h => deriveConversationId_inj ha hb hc hd h⟩

/-- Witness for C1 at concrete identities. -/
theorem deriveConversationId_spec_witness :
    ("ua" : String) ≠ "ub" ∧ ("uc" : String) ≠ "ub" ∧
    ('_' ∉ ("ua" : String).data) ∧ ('_' ∉ ("ub" : String).data) ∧
    ('_' ∉ ("uc" : String).data) ∧
    (deriveConversationId "ua" "ub" = deriveConversationId "ub" "ua" ∧
      (deriveConversationId "ua" "ub" = deriveConversationId "uc" "ub" →
        ("ua" = "uc" ∧ "ub" = "ub") ∨ (("ua" : String) = "ub" ∧ "ub" = "uc"))) :=
  ⟨by decide, by decide, by decide, by decide, by decide,
    deriveConversationId_spec "ua" "ub" "uc" "ub" (by decide) (by decide)
      (by decide) (by decide) (by decide) (by decide)⟩

/-! Backend document model. Firestore documents are partial field maps; a
merge write (`setDoc` with `merge: true`) replaces exactly the fields it
carries and keeps the rest, creating the document when absent. Stores are
association lists keyed by document id. -/

/-- A `users/uid` profile document, as written at sign-up. -/
structure UserDoc where
  uid : String
  number : String
deriving DecidableEq

/-- A `chats/chatId` document; every field may be absent. -/
structure ChatDoc where
  participants : Option (List String)
  participantNumbers : Option (List String)
  lastMessage : Option String
  updatedAt : Option Nat
deriving DecidableEq

/-- The fields carried by one merge write against a chat document. -/
structure ChatWrite where
  participants : Option (List String)
  participantNumbers : Option (List String)
  lastMessage : Option String
  updatedAt : Option Nat
deriving DecidableEq

/-- A `chats/chatId/messages` document, as written by `handleSendMessage`.
`senderName` is the optional field of `MessageItem` in src/src/types.ts. -/
structure MsgDoc where
  text : String
  senderId : String
  senderNumber : String
  senderName : Option String
  createdAt : Nat
deriving DecidableEq

def emptyChatDoc : ChatDoc := ⟨none, none, none, none⟩

/-- Merge semantics: a field present in the write overrides, an absent field
keeps the old value. -/
def mergeFields (old : ChatDoc) (w : ChatWrite) : ChatDoc where
  participants := match w.participants with
    | some v => some v
    | none => old.participants
  participantNumbers := match w.participantNumbers with
    | some v => some v
    | none => old.participantNumbers
  lastMessage := match w.lastMessage with
    | some v => some v
    | none => old.lastMessage
  updatedAt := match w.updatedAt with
    | some v => some v
    | none => old.updatedAt

abbrev ChatStore := List (String × ChatDoc)
abbrev MsgStore := List (String × List MsgDoc)

def getDocById : ChatStore → String → Option ChatDoc
  | [], _ => none
  | p :: rest, id => if p.1 = id then some p.2 else getDocById rest id

def setDocMergeChat : ChatStore → String → ChatWrite → ChatStore
  | [], id, w => [(id, mergeFields emptyChatDoc w)]
  | p :: rest, id, w =>
    if p.1 = id then (p.1, mergeFields p.2 w) :: rest
    else p :: setDocMergeChat rest id w

def getMsgs : MsgStore → String → List MsgDoc
  | [], _ => []
  | p :: rest, id => if p.1 = id then p.2 else getMsgs rest id

def appendMsgDoc : MsgStore → String → MsgDoc → MsgStore
  | [], id, m => [(id, [m])]
  | p :: rest, id, m =>
    if p.1 = id then (p.1, p.2 ++ [m]) :: rest
    else p :: appendMsgDoc rest id m

/-- The whole backend: user profiles, chat documents, message subcollections. -/
structure Backend where
  users : List UserDoc
  chats : ChatStore
  msgs : MsgStore
deriving DecidableEq

/-- One backend write, in the order the client awaits them. -/
inductive WriteOp where
  | mergeChat (chatId : String) (w : ChatWrite)
  | appendMessage (chatId : String) (m : MsgDoc)
deriving DecidableEq

def applyWrite (b : Backend) : WriteOp → Backend
  | .mergeChat id w => { b with chats := setDocMergeChat b.chats id w }
  | .appendMessage id m => { b with msgs := appendMsgDoc b.msgs id m }

def applyWrites (b : Backend) (ops : List WriteOp) : Backend :=
  ops.foldl applyWrite b

/-! The operations under verification. Each returns its result value together
with the trace of backend writes it issued, in program order. -/

inductive LookupResult where
  | err (msg : String)
  | ok (cleanedNumber : String) (userId : String)
deriving DecidableEq

/-- Embeds `findUserByNumber` (src/src/App.tsx lines 243-260, identical to
`lookupUserByNumber` in src/src/utils/chat.ts with the default message):
sanitize, require six digits, point-query `users` on `number`, take the
first matching document. -/
def findUserByNumber (users : List UserDoc) (targetNumber : String) : LookupResult :=
  let cleanedTarget := sanitizeNumber targetNumber
  if cleanedTarget.length ≠ 6 then .err "Enter a 6-digit ID."
  else
    match users.filter (fun u => u.number = cleanedTarget) with
    | [] => .err "No player found with that ID."
    | u :: _ => .ok cleanedTarget u.uid

inductive StartChatResult where
  | err (msg : String)
  | ok (chatId : String) (number : String)
deriving DecidableEq

/-- Embeds `startChatWithNumber` (src/src/App.tsx lines 262-294). `user` is
the signed-in uid if any, `currentNumber` the caller's profile number, `now`
the server timestamp the merge write resolves to. The trace is the list of
backend writes issued. -/
def startChatWithNumber (users : List UserDoc) (user : Option String)
    (currentNumber targetNumber : String) (now : Nat) :
    StartChatResult × List WriteOp :=
  match user with
  | none => (.err "Sign in to start a chat.", [])
  | some uid =>
    if currentNumber = "" then
      (.err "Finish setting up your profile before chatting.", [])
    else
      match findUserByNumber users targetNumber with
      | .err e => (.err e, [])
      | .ok cleanedNumber userId =>
        if cleanedNumber = currentNumber then
          (.err "That is your own ID.", [])
        else
          let chatId := deriveConversationId uid userId
          (.ok chatId cleanedNumber,
            [.mergeChat chatId
              ⟨some [uid, userId], some [currentNumber, cleanedNumber],
                none, some now⟩])

/-- Embeds JavaScript `text.trim()`: strip leading and trailing whitespace. -/
def trimString (s : String) : String :=
  ⟨((s.data.dropWhile Char.isWhitespace).reverse.dropWhile Char.isWhitespace).reverse⟩

/-- Embeds `handleSendMessage` (src/src/App.tsx lines 354-378): guard on a
signed-in user and an active chat, trim the compose text, bail out silently
when blank, otherwise append the message document and merge-update the chat
summary, then clear the compose field. Returns the write trace and the new
compose state; `t1`, `t2` are the server timestamps of the two writes. -/
def handleSendMessage (user activeChatId : Option String)
    (currentNumber compose : String) (t1 t2 : Nat) :
    List WriteOp × String :=
  match user, activeChatId with
  | some uid, some chatId =>
    let trimmed := trimString compose
    if trimmed = "" then ([], compose)
    else
      ([.appendMessage chatId ⟨trimmed, uid, currentNumber, none, t1⟩,
        .mergeChat chatId ⟨none, none, some trimmed, some t2⟩],
        "")
  | _, _ => ([], compose)

/-! Store lemmas shared by the claims. -/

theorem getDocById_setDocMergeChat_self (cs : ChatStore) (id : String)
    (w : ChatWrite) :
    getDocById (setDocMergeChat cs id w) id
      = some (mergeFields ((getDocById cs id).getD emptyChatDoc) w) := by
  induction cs with
  | nil => simp [getDocById, setDocMergeChat]
  | cons p rest ih =>
    by_cases h : p.1 = id
    · simp [getDocById, setDocMergeChat, h]
    · simp [getDocById, setDocMergeChat, h, ih]

theorem setDocMergeChat_keys (cs : ChatStore) (id : String) (w : ChatWrite)
    (h : (getDocById cs id).isSome = true) :
    (setDocMergeChat cs id w).map Prod.fst = cs.map Prod.fst := by
  induction cs with
  | nil => simp [getDocById] at h
  | cons p rest ih =>
    by_cases hp : p.1 = id
    · simp [setDocMergeChat, hp]
    · rw [getDocById, if_neg hp] at h
      simp [setDocMergeChat, hp, ih h]

theorem getMsgs_appendMsgDoc_self (ms : MsgStore) (id : String) (m : MsgDoc) :
    getMsgs (appendMsgDoc ms id m) id = getMsgs ms id ++ [m] := by
  induction ms with
  | nil => simp [getMsgs, appendMsgDoc]
  | cons p rest ih =>
    by_cases h : p.1 = id
    · simp [getMsgs, appendMsgDoc, h]
    · simp [getMsgs, appendMsgDoc, h, ih]

/-- A successful lookup returns the sanitized six-digit target and the uid of
a profile in the store whose number is exactly that target. -/
theorem findUserByNumber_ok (users : List UserDoc) (target c uid : String)
    (h : findUserByNumber users target = .ok c uid) :
    c = sanitizeNumber target ∧ (sanitizeNumber target).length = 6 ∧
    ∃ u ∈ users, u.uid = uid ∧ u.number = c := by
  unfold findUserByNumber at h
  by_cases hlen : (sanitizeNumber target).length = 6
  · rw [if_neg (by simp [hlen])] at h
    cases hf : users.filter (fun u => u.number = sanitizeNumber target) with
    | nil => rw [hf] at h; exact absurd h (by simp)
    | cons u rest =>
      rw [hf] at h
      have hinj := h
      simp only [LookupResult.ok.injEq] at hinj
      have hu : u ∈ users.filter (fun v => v.number = sanitizeNumber target) := by
        rw [hf]; exact List.mem_cons_self u rest
      have hmem := List.mem_filter.mp hu
      refine ⟨hinj.1.symm, hlen, u, hmem.1, hinj.2, ?_⟩
      rw [← hinj.1]
      exact of_decide_eq_true hmem.2
  · rw [if_pos (by simp [hlen])] at h
    exact absurd h (by simp)

/-- Claim C3: each failing cause of startChatWithNumber produces the message
the spec assigns to it (ProfileIncomplete, InvalidTarget, TargetNotFound,
SelfTarget in the words of the code) and issues no backend write, and every
failing call leaves the backend unchanged. The SelfTarget case requires the
caller's own number to be registered, since the code resolves the target
before comparing it with the caller. -/
theorem startChatWithNumber_error_cases (users : List UserDoc) (b : Backend)
    (uid currentNumber target : String) (t : Nat) :
    (currentNumber = "" →
      startChatWithNumber users (some uid) currentNumber target t
        = (.err "Finish setting up your profile before chatting.", [])) ∧
    (currentNumber ≠ "" → (sanitizeNumber target).length ≠ 6 →
      startChatWithNumber users (some uid) currentNumber target t
        = (.err "Enter a 6-digit ID.", [])) ∧
    (currentNumber ≠ "" → (sanitizeNumber target).length = 6 →
      users.filter (fun u => u.number = sanitizeNumber target) = [] →
      startChatWithNumber users (some uid) currentNumber target t
        = (.err "No player found with that ID.", [])) ∧
    (currentNumber ≠ "" → sanitizeNumber target = currentNumber →
      (sanitizeNumber target).length = 6 →
      users.filter (fun u => u.number = sanitizeNumber target) ≠ [] →
      startChatWithNumber users (some uid) currentNumber target t
        = (.err "That is your own ID.", [])) ∧
    (∀ msg,
      (startChatWithNumber users (some uid) currentNumber target t).1 = .err msg →
      applyWrites b (startChatWithNumber users (some uid) currentNumber target t).2
        = b) := by
  refine ⟨?_, ?_, ?_, ?_, ?_⟩
  · intro hcur
    simp [startChatWithNumber, hcur]
  · intro hcur hlen
    simp [startChatWithNumber, hcur, findUserByNumber, hlen]
  · intro hcur hlen hfilter
    simp [startChatWithNumber, hcur, findUserByNumber, hlen, hfilter]
  · intro hcur hself hlen hfilter
    cases hf : users.filter (fun u => u.number = sanitizeNumber target) with
    | nil => exact absurd hf hfilter
    | cons u rest =>
      rw [hself] at hlen hf
      simp [startChatWithNumber, hcur, findUserByNumber, hself, hlen, hf]
  · intro msg herr
    unfold startChatWithNumber at herr ⊢
    by_cases hcur : currentNumber = ""
    · simp [hcur, applyWrites]
    · cases hfind : findUserByNumber users target with
      | err e => simp [hcur, hfind, applyWrites]
      | ok c tuid =>
        by_cases hc : c = currentNumber
        · simp [hcur, hfind, hc, applyWrites]
        · simp [hcur, hfind, hc] at herr

/-- Witness for C3: concrete failing calls of every kind against a single
registered user, and the unchanged-backend conclusion at the SelfTarget
input. -/
theorem startChatWithNumber_error_cases_witness :
    startChatWithNumber [⟨"ua", "111111"⟩] (some "ua") "" "222222" 0
      = (.err "Finish setting up your profile before chatting.", []) ∧
    startChatWithNumber [⟨"ua", "111111"⟩] (some "ua") "111111" "12345" 0
      = (.err "Enter a 6-digit ID.", []) ∧
    startChatWithNumber [⟨"ua", "111111"⟩] (some "ua") "111111" "222222" 0
      = (.err "No player found with that ID.", []) ∧
    startChatWithNumber [⟨"ua", "111111"⟩] (some "ua") "111111" "111111" 0
      = (.err "That is your own ID.", []) ∧
    applyWrites ⟨[⟨"ua", "111111"⟩], [], []⟩
      (startChatWithNumber [⟨"ua", "111111"⟩] (some "ua") "111111" "111111" 0).2
      = ⟨[⟨"ua", "111111"⟩], [], []⟩ :=
  ⟨(startChatWithNumber_error_cases [⟨"ua", "111111"⟩] ⟨[⟨"ua", "111111"⟩], [], []⟩
      "ua" "" "222222" 0).1 rfl,
    (startChatWithNumber_error_cases [⟨"ua", "111111"⟩] ⟨[⟨"ua", "111111"⟩], [], []⟩
      "ua" "111111" "12345" 0).2.1 (by decide) (by decide),
    (startChatWithNumber_error_cases [⟨"ua", "111111"⟩] ⟨[⟨"ua", "111111"⟩], [], []⟩
      "ua" "111111" "222222" 0).2.2.1 (by decide) (by decide) (by decide),
    (startChatWithNumber_error_cases [⟨"ua", "111111"⟩] ⟨[⟨"ua", "111111"⟩], [], []⟩
      "ua" "111111" "111111" 0).2.2.2.1 (by decide) (by decide) (by decide)
      (by decide),
    (startChatWithNumber_error_cases [⟨"ua", "111111"⟩] ⟨[⟨"ua", "111111"⟩], [], []⟩
      "ua" "111111" "111111" 0).2.2.2.2 "That is your own ID." (by decide)⟩

/-- Claim C9: when several profile documents carry the same six-digit number,
the lookup still succeeds and deterministically returns the uid of the first
document in the query result. -/
theorem findUserByNumber_duplicate (users : List UserDoc) (target : String)
    (u : UserDoc) (rest : List UserDoc)
    (hlen : (sanitizeNumber target).length = 6)
    (hfilter : users.filter (fun v => v.number = sanitizeNumber target) = u :: rest)
    (hdup : rest ≠ []) :
    findUserByNumber users target = .ok (sanitizeNumber target) u.uid := by
  unfold findUserByNumber
  rw [if_neg (by simp [hlen]), hfilter]

/-- Witness for C9: two profiles share the number 123456; the lookup returns
the first. -/
theorem findUserByNumber_duplicate_witness :
    (sanitizeNumber "123456").length = 6 ∧
    List.filter (fun v => v.number = sanitizeNumber "123456")
      [(⟨"u1", "123456"⟩ : UserDoc), ⟨"u2", "123456"⟩]
      = [⟨"u1", "123456"⟩, ⟨"u2", "123456"⟩] ∧
    ([(⟨"u2", "123456"⟩ : UserDoc)] ≠ []) ∧
    findUserByNumber [⟨"u1", "123456"⟩, ⟨"u2", "123456"⟩] "123456"
      = .ok (sanitizeNumber "123456") "u1" :=
  ⟨by decide, by decide, by decide,
    findUserByNumber_duplicate [⟨"u1", "123456"⟩, ⟨"u2", "123456"⟩] "123456"
      ⟨"u1", "123456"⟩ [⟨"u2", "123456"⟩] (by decide) (by decide) (by decide)⟩

/-- Claim C10: every successful startChatWithNumber issues exactly one merge
write whose participants and participantNumbers are positionally aligned,
caller at index 0 and target at index 1, and each participant uid owns the
number at the same index in the users store. -/
theorem startChatWithNumber_positional_alignment (users : List UserDoc)
    (uid currentNumber target cid n : String) (t : Nat)
    (hself : ∃ u ∈ users, u.uid = uid ∧ u.number = currentNumber)
    (hok : (startChatWithNumber users (some uid) currentNumber target t).1
      = .ok cid n) :
    ∃ tUid,
      (startChatWithNumber users (some uid) currentNumber target t).2
        = [.mergeChat cid
            ⟨some [uid, tUid], some [currentNumber, n], none, some t⟩] ∧
      (∃ u ∈ users, u.uid = uid ∧ u.number = currentNumber) ∧
      ∃ u ∈ users, u.uid = tUid ∧ u.number = n := by
  unfold startChatWithNumber at hok ⊢
  by_cases hcur : currentNumber = ""
  · simp [hcur] at hok
  · cases hfind : findUserByNumber users target with
    | err e => simp [hcur, hfind] at hok
    | ok c tUid =>
      by_cases hc : c = currentNumber
      · simp [hcur, hfind, hc] at hok
      · simp only [hcur, hfind, hc, if_neg, if_false] at hok ⊢
        simp only [if_neg hcur, if_neg hc, StartChatResult.ok.injEq] at hok ⊢
        obtain ⟨hcs, h6, u, hu, huid, hnum⟩ :=
          findUserByNumber_ok users target c tUid hfind
        refine ⟨tUid, ?_, hself, u, hu, huid, by rw [hnum, hok.2]⟩
        rw [hok.1, hok.2]

/-- Witness for C10 at a two-user store. -/
theorem startChatWithNumber_positional_alignment_witness :
    (∃ u ∈ [(⟨"ua", "111111"⟩ : UserDoc), ⟨"ub", "222222"⟩],
      u.uid = "ua" ∧ u.number = "111111") ∧
    (startChatWithNumber [⟨"ua", "111111"⟩, ⟨"ub", "222222"⟩] (some "ua")
        "111111" "222222" 7).1 = .ok "ua_ub" "222222" ∧
    ∃ tUid,
      (startChatWithNumber [⟨"ua", "111111"⟩, ⟨"ub", "222222"⟩] (some "ua")
          "111111" "222222" 7).2
        = [.mergeChat "ua_ub"
            ⟨some ["ua", tUid], some ["111111", "222222"], none, some 7⟩] ∧
      (∃ u ∈ [(⟨"ua", "111111"⟩ : UserDoc), ⟨"ub", "222222"⟩],
        u.uid = "ua" ∧ u.number = "111111") ∧
      ∃ u ∈ [(⟨"ua", "111111"⟩ : UserDoc), ⟨"ub", "222222"⟩],
        u.uid = tUid ∧ u.number = "222222" :=
  ⟨by decide, by decide,
    startChatWithNumber_positional_alignment
      [⟨"ua", "111111"⟩, ⟨"ub", "222222"⟩] "ua" "111111" "222222" "ua_ub"
      "222222" 7 (by decide) (by decide)⟩

/-- Claim C2: for two registered users the two calls of the start-conversation
operation — one per initiation order — resolve to the same conversation
identifier; the second call creates no additional conversation record and its
merge write sets participants, participantNumbers and updatedAt while leaving
the lastMessage the document held before it (for instance one set by an
intervening send) unchanged. -/
theorem startConversation_idempotent (users : List UserDoc)
    (cs : ChatStore) (ms : MsgStore) (id1 id2 n1 n2 : String) (t1 t2 : Nat)
    (d : ChatDoc)
    (h1 : findUserByNumber users n2 = .ok n2 id2)
    (h2 : findUserByNumber users n1 = .ok n1 id1)
    (hne : n1 ≠ n2) (hn1 : n1 ≠ "") (hn2 : n2 ≠ "")
    (hd : getDocById cs (deriveConversationId id1 id2) = some d) :
    (startChatWithNumber users (some id1) n1 n2 t1).1
      = .ok (deriveConversationId id1 id2) n2 ∧
    (startChatWithNumber users (some id2) n2 n1 t2).1
      = .ok (deriveConversationId id1 id2) n1 ∧
    ((applyWrites ⟨users, cs, ms⟩
        (startChatWithNumber users (some id2) n2 n1 t2).2).chats).map Prod.fst
      = cs.map Prod.fst ∧
    getDocById (applyWrites ⟨users, cs, ms⟩
        (startChatWithNumber users (some id2) n2 n1 t2).2).chats
        (deriveConversationId id1 id2)
      = some ⟨some [id2, id1], some [n2, n1], d.lastMessage, some t2⟩ := by
  have hne' : ¬(n2 = n1) := fun h => hne h.symm
  have htr : startChatWithNumber users (some id2) n2 n1 t2
      = (.ok (deriveConversationId id1 id2) n1,
        [.mergeChat (deriveConversationId id1 id2)
          ⟨some [id2, id1], some [n2, n1], none, some t2⟩]) := by
    simp [startChatWithNumber, hn2, h2, hne, deriveConversationId_comm id2 id1]
  refine ⟨by simp [startChatWithNumber, hn1, h1, hne'], by rw [htr], ?_, ?_⟩
  · rw [htr]
    simp only [applyWrites, List.foldl, applyWrite]
    exact setDocMergeChat_keys cs _ _ (by rw [hd]; rfl)
  · rw [htr]
    simp only [applyWrites, List.foldl, applyWrite]
    rw [getDocById_setDocMergeChat_self, hd]
    simp [mergeFields]

/-- Witness for C2: two registered users, a store already holding their
conversation with a lastMessage set by an earlier send; the second call keeps
that lastMessage. -/
theorem startConversation_idempotent_witness :
    findUserByNumber [(⟨"ua", "111111"⟩ : UserDoc), ⟨"ub", "222222"⟩] "222222"
      = .ok "222222" "ub" ∧
    findUserByNumber [(⟨"ua", "111111"⟩ : UserDoc), ⟨"ub", "222222"⟩] "111111"
      = .ok "111111" "ua" ∧
    ("111111" : String) ≠ "222222" ∧ ("111111" : String) ≠ "" ∧
    ("222222" : String) ≠ "" ∧
    getDocById [("ua_ub",
        (⟨some ["ua", "ub"], some ["111111", "222222"], some "hi", some 1⟩ : ChatDoc))]
      (deriveConversationId "ua" "ub")
      = some ⟨some ["ua", "ub"], some ["111111", "222222"], some "hi", some 1⟩ ∧
    ((startChatWithNumber [⟨"ua", "111111"⟩, ⟨"ub", "222222"⟩] (some "ua")
        "111111" "222222" 2).1 = .ok (deriveConversationId "ua" "ub") "222222" ∧
      (startChatWithNumber [⟨"ua", "111111"⟩, ⟨"ub", "222222"⟩] (some "ub")
        "222222" "111111" 3).1 = .ok (deriveConversationId "ua" "ub") "111111" ∧
      ((applyWrites ⟨[⟨"ua", "111111"⟩, ⟨"ub", "222222"⟩],
          [("ua_ub", ⟨some ["ua", "ub"], some ["111111", "222222"], some "hi", some 1⟩)], []⟩
          (startChatWithNumber [⟨"ua", "111111"⟩, ⟨"ub", "222222"⟩] (some "ub")
            "222222" "111111" 3).2).chats).map Prod.fst
        = ([("ua_ub",
            (⟨some ["ua", "ub"], some ["111111", "222222"], some "hi", some 1⟩ : ChatDoc))]).map Prod.fst ∧
      getDocById (applyWrites ⟨[⟨"ua", "111111"⟩, ⟨"ub", "222222"⟩],
          [("ua_ub", ⟨some ["ua", "ub"], some ["111111", "222222"], some "hi", some 1⟩)], []⟩
          (startChatWithNumber [⟨"ua", "111111"⟩, ⟨"ub", "222222"⟩] (some "ub")
            "222222" "111111" 3).2).chats (deriveConversationId "ua" "ub")
        = some ⟨some ["ub", "ua"], some ["222222", "111111"],
            (⟨some ["ua", "ub"], some ["111111", "222222"], some "hi", some 1⟩ : ChatDoc).lastMessage,
            some 3⟩) :=
  ⟨by decide, by decide, by decide, by decide, by decide, by decide,
    startConversation_idempotent [⟨"ua", "111111"⟩, ⟨"ub", "222222"⟩]
      [("ua_ub", ⟨some ["ua", "ub"], some ["111111", "222222"], some "hi", some 1⟩)]
      [] "ua" "ub" "111111" "222222" 2 3
      ⟨some ["ua", "ub"], some ["111111", "222222"], some "hi", some 1⟩
      (by decide) (by decide) (by decide) (by decide) (by decide) (by decide)⟩

/-- Claim C5: submitting a send whose compose text trims to empty is a no-op:
no write is issued, the backend is unchanged, and the compose state is kept
as it was. -/
theorem handleSendMessage_blank (user activeChatId : Option String)
    (currentNumber compose : String) (t1 t2 : Nat) (b : Backend)
    (h : trimString compose = "") :
    handleSendMessage user activeChatId currentNumber compose t1 t2
      = ([], compose) ∧
    applyWrites b
      (handleSendMessage user activeChatId currentNumber compose t1 t2).1 = b := by
  cases user with
  | none => simp [handleSendMessage, applyWrites]
  | some uid =>
    cases activeChatId with
    | none => simp [handleSendMessage, applyWrites]
    | some cid => simp [handleSendMessage, h, applyWrites]

/-- Witness for C5 on whitespace-only compose text. -/
theorem handleSendMessage_blank_witness :
    trimString "   " = "" ∧
    handleSendMessage (some "ua") (some "c1") "111111" "   " 4 5 = ([], "   ") ∧
    applyWrites ⟨[], [], []⟩
      (handleSendMessage (some "ua") (some "c1") "111111" "   " 4 5).1
      = ⟨[], [], []⟩ :=
  ⟨by decide,
    (handleSendMessage_blank (some "ua") (some "c1") "111111" "   " 4 5
      ⟨[], [], []⟩ (by decide)).1,
    (handleSendMessage_blank (some "ua") (some "c1") "111111" "   " 4 5
      ⟨[], [], []⟩ (by decide)).2⟩

/-- Claim C6 (amended): a successful send of non-blank text issues exactly two
writes in program order — first the append of a message document carrying the
trimmed text, the sender's uid and the denormalized senderNumber with a
server-assigned createdAt, then the merge-update of the conversation document
setting lastMessage to the trimmed text and refreshing updatedAt — and clears
the compose field; the message document carries no senderName. -/
theorem handleSendMessage_success (uid cid currentNumber compose : String)
    (t1 t2 : Nat) (b : Backend)
    (h : trimString compose ≠ "") :
    handleSendMessage (some uid) (some cid) currentNumber compose t1 t2
      = ([.appendMessage cid ⟨trimString compose, uid, currentNumber, none, t1⟩,
          .mergeChat cid ⟨none, none, some (trimString compose), some t2⟩], "") ∧
    getMsgs (applyWrites b
        (handleSendMessage (some uid) (some cid) currentNumber compose t1 t2).1).msgs
        cid
      = getMsgs b.msgs cid
        ++ [⟨trimString compose, uid, currentNumber, none, t1⟩] ∧
    (getDocById (applyWrites b
        (handleSendMessage (some uid) (some cid) currentNumber compose t1 t2).1).chats
        cid).map ChatDoc.lastMessage = some (some (trimString compose)) ∧
    (getDocById (applyWrites b
        (handleSendMessage (some uid) (some cid) currentNumber compose t1 t2).1).chats
        cid).map ChatDoc.updatedAt = some (some t2) := by
  have htr : handleSendMessage (some uid) (some cid) currentNumber compose t1 t2
      = ([.appendMessage cid ⟨trimString compose, uid, currentNumber, none, t1⟩,
          .mergeChat cid ⟨none, none, some (trimString compose), some t2⟩], "") := by
    simp [handleSendMessage, h]
  refine ⟨htr, ?_, ?_, ?_⟩
  · rw [htr]
    simp only [applyWrites, List.foldl, applyWrite]
    exact getMsgs_appendMsgDoc_self b.msgs cid _
  · rw [htr]
    simp only [applyWrites, List.foldl, applyWrite]
    rw [getDocById_setDocMergeChat_self]
    simp [mergeFields]
  · rw [htr]
    simp only [applyWrites, List.foldl, applyWrite]
    rw [getDocById_setDocMergeChat_self]
    simp [mergeFields]

/-- Witness for C6 (amended) on a concrete send. -/
theorem handleSendMessage_success_witness :
    trimString " hi " ≠ "" ∧
    handleSendMessage (some "ua") (some "c1") "111111" " hi " 5 6
      = ([.appendMessage "c1" ⟨trimString " hi ", "ua", "111111", none, 5⟩,
          .mergeChat "c1" ⟨none, none, some (trimString " hi "), some 6⟩], "") ∧
    getMsgs (applyWrites ⟨[], [], []⟩
        (handleSendMessage (some "ua") (some "c1") "111111" " hi " 5 6).1).msgs "c1"
      = getMsgs ([] : MsgStore) "c1" ++ [⟨trimString " hi ", "ua", "111111", none, 5⟩] :=
  ⟨by decide,
    (handleSendMessage_success "ua" "c1" "111111" " hi " 5 6 ⟨[], [], []⟩
      (by decide)).1,
    (handleSendMessage_success "ua" "c1" "111111" " hi " 5 6 ⟨[], [], []⟩
      (by decide)).2.1⟩

/-- Claim C6 as stated is false: at a concrete successful send the message
document written to the backend carries no senderName field — the send path
of src/src/App.tsx writes only text, senderId, senderNumber and createdAt,
and takes no display-name input at all. -/
theorem handleSendMessage_no_senderName :
    (applyWrites ⟨[], [], []⟩
        (handleSendMessage (some "ua") (some "c1") "111111" "hi" 5 6).1).msgs
      = [("c1", [⟨"hi", "ua", "111111", none, 5⟩])] ∧
    ∀ m ∈ getMsgs (applyWrites ⟨[], [], []⟩
        (handleSendMessage (some "ua") (some "c1") "111111" "hi" 5 6).1).msgs "c1",
      m.senderName = none := by
  decide

/-! The conversation-directory selection policy. -/

/-- Embeds the chat-list onSnapshot callback of src/src/App.tsx lines 165-181:
the snapshot (its documents already ordered by updatedAt descending) replaces
the list wholesale and the active id is updated by
`prev ?? nextChats[0]?.id ?? null`. Only the active-id update is modelled;
the snapshot is the list of delivered conversation ids, most recent first. -/
def deliverChatsSnapshot (prev : Option String) (snapshot : List String) :
    Option String :=
  match prev with
  | some id => some id
  | none => snapshot.head?

/-- Claim C7 as stated is false: auto-selection is not limited to the first
delivered snapshot. With nothing selected, an empty first snapshot selects
nothing, and the second snapshot then auto-selects its most recent entry,
changing the selection at a delivery that is not the first. -/
theorem deliverChatsSnapshot_counterexample :
    List.foldl deliverChatsSnapshot none [[]] = none ∧
    List.foldl deliverChatsSnapshot none [[], ["c1"]] = some "c1" := by
  decide

/-- Claim C7 (amended): a snapshot delivered while nothing is selected
auto-selects its most recent entry — at any such delivery, not only the
first — and once a conversation is selected, no later snapshot delivery ever
replaces it, regardless of how the conversation's position in the
descending-by-updatedAt order changes. -/
theorem deliverChatsSnapshot_policy (id : String) (snap : List String)
    (snaps : List (List String)) :
    deliverChatsSnapshot none snap = snap.head? ∧
    List.foldl deliverChatsSnapshot (some id) snaps = some id := by
  refine ⟨rfl, ?_⟩
  induction snaps with
  | nil => rfl
  | cons s rest ih => simpa [deliverChatsSnapshot] using ih

/-! The authentication error mapper. -/

/-- Input of `authErrorMessage` (src/src/App.tsx lines 53-73): either a
FirebaseError with its code, or any other thrown value. -/
inductive AuthError where
  | firebase (code : String)
  | other
deriving DecidableEq

/-- Embeds `authErrorMessage`: six recognized codes map to fixed sentences,
everything else to the generic fallback. -/
def authErrorMessage : AuthError → String
  | .firebase code =>
    if code = "auth/email-already-in-use" then
      "That 6-digit ID is already registered."
    else if code = "auth/invalid-email" then "Enter a valid 6-digit ID."
    else if code = "auth/weak-password" then
      "Password should be at least 6 characters."
    else if code = "auth/wrong-password" then "Incorrect password for that ID."
    else if code = "auth/user-not-found" then "No account found for that ID."
    else if code = "auth/too-many-requests" then
      "Too many attempts. Try again soon."
    else "Unable to sign you in right now."
  | .other => "Unable to sign you in right now."

/-- Claim C8: the authentication error mapper is total with a finite range of
seven pairwise-distinct sentences; each of the six recognized codes maps to
its own sentence, and every other input — unrecognized code or non-Firebase
error — maps to the single generic fallback. -/
theorem authErrorMessage_spec (e : AuthError) :
    authErrorMessage e ∈
      ["That 6-digit ID is already registered.", "Enter a valid 6-digit ID.",
        "Password should be at least 6 characters.",
        "Incorrect password for that ID.", "No account found for that ID.",
        "Too many attempts. Try again soon.",
        "Unable to sign you in right now."] ∧
    authErrorMessage (.firebase "auth/email-already-in-use")
      = "That 6-digit ID is already registered." ∧
    authErrorMessage (.firebase "auth/invalid-email")
      = "Enter a valid 6-digit ID." ∧
    authErrorMessage (.firebase "auth/weak-password")
      = "Password should be at least 6 characters." ∧
    authErrorMessage (.firebase "auth/wrong-password")
      = "Incorrect password for that ID." ∧
    authErrorMessage (.firebase "auth/user-not-found")
      = "No account found for that ID." ∧
    authErrorMessage (.firebase "auth/too-many-requests")
      = "Too many attempts. Try again soon." ∧
    (∀ code, code ∉ ["auth/email-already-in-use", "auth/invalid-email",
        "auth/weak-password", "auth/wrong-password", "auth/user-not-found",
        "auth/too-many-requests"] →
      authErrorMessage (.firebase code) = "Unable to sign you in right now.") ∧
    authErrorMessage .other = "Unable to sign you in right now." ∧
    (["That 6-digit ID is already registered.", "Enter a valid 6-digit ID.",
        "Password should be at least 6 characters.",
        "Incorrect password for that ID.", "No account found for that ID.",
        "Too many attempts. Try again soon.",
        "Unable to sign you in right now."] : List String).Nodup := by
  refine ⟨?_, by decide, by decide, by decide, by decide, by decide, by decide,
    ?_, by decide, by decide⟩
  · cases e with
    | other => simp [authErrorMessage]
    | firebase code =>
      unfold authErrorMessage
      repeat' split
      all_goals simp
  · intro code hc
    simp only [List.mem_cons, List.not_mem_nil, or_false, not_or] at hc
    obtain ⟨c1, c2, c3, c4, c5, c6⟩ := hc
    simp [authErrorMessage, c1, c2, c3, c4, c5, c6]

/-- Witness for C8: an unrecognized code falls back to the generic sentence. -/
theorem authErrorMessage_spec_witness :
    ("auth/network-request-failed" ∉ ["auth/email-already-in-use",
      "auth/invalid-email", "auth/weak-password", "auth/wrong-password",
      "auth/user-not-found", "auth/too-many-requests"]) ∧
    authErrorMessage (.firebase "auth/network-request-failed")
      = "Unable to sign you in right now." :=
  ⟨by decide,
    (authErrorMessage_spec .other).2.2.2.2.2.2.2.1 "auth/network-request-failed"
      (by decide)⟩

end WinterRetreat
